import Mathlib

/-!
Shallow embedding of the Subject Bridge of the SimioUnrealEngineLiveLinkConnector
repository: the singleton `FLiveLinkBridge` (LiveLinkBridge.h / LiveLinkBridge.cpp)
together with the exported C call surface (UnrealLiveLink.API.cpp) and the status
codes of UnrealLiveLink.Types.h.

Modelling conventions, all taken from the source:
* `FName` is modelled by its string value (the interned token); `NAME_None` is the
  empty string.  FName comparison in Unreal is case-insensitive; no verified claim
  involves names differing only in case, so string equality is used.
* `TMap` is modelled as an association list with unique keys, with `mapFind`,
  `mapContains`, `mapAdd` (replace-or-append, as `TMap::Add`) and `mapRemove`
  (which also yields the number of removed entries, as `TMap::Remove`).
* The bridge never inspects the ten doubles of an `FTransform` nor the float
  property values: it copies them into the frame structure and hands them to the
  provider.  They are therefore modelled as opaque tokens (`FTransformPayload`,
  `FloatValue`, each a wrapped `Nat` so that distinct values exist).  The helper
  `ConvertToFTransform` of UnrealLiveLink.API.cpp repackages the ten doubles
  one-to-one into an `FTransform` and is modelled as the identity on the payload;
  its NULL branch is unreachable because both callers return on a NULL transform
  before converting.
* Calls into the external `ILiveLinkProvider` are recorded as a trace of
  `TransportEvent`s.  `ILiveLinkProvider::CreateLiveLinkProvider` may fail at the
  whim of the environment; that nondeterminism is an explicit `createOk : Bool`
  argument of the operations that call `EnsureLiveLinkSource`.  Likewise
  `GEngineLoop.PreInit` may fail, which is the `preInitOk : Bool` argument of
  `Initialize`.  The casts of `FLiveLinkStaticDataStruct` /
  `FLiveLinkFrameDataStruct` to their transform structs always succeed (they cast
  a freshly constructed struct of exactly that type), so the defensive
  failed-cast branches are not modelled.
* Diagnostic UE_LOG lines that report an error/rejection condition are recorded
  in a `Report` trace.  Log sites that are rate-limited by a static counter
  (`% 60 == 1` throttling inside the high-frequency update paths) and purely
  informational success logs are not modelled; none of the verified claims
  depends on them.
* C pointers are `Option`s (`none` = NULL); a C array argument is a function
  from index to element, read only at the indices the accompanying count makes
  the source read.
-/

namespace SimioLiveLink

/-- FName modelled by its string value; `NAME_None` is the empty string. -/
abbrev FName := String

def NAME_None : FName := ""

/-! Status codes from UnrealLiveLink.Types.h. -/

def ULL_OK : Int := 0
def ULL_ERROR : Int := -1
def ULL_NOT_CONNECTED : Int := -2
def ULL_NOT_INITIALIZED : Int := -3
def ULL_API_VERSION : Int := 1

/-- Opaque stand-in for the ten doubles of an `FTransform`: the bridge copies the
transform through to the transport without inspecting it. -/
structure FTransformPayload where
  tag : Nat
  deriving DecidableEq, Repr

/-- Opaque stand-in for a C float property value: the bridge only ever reads the
number of values, never a value itself. -/
structure FloatValue where
  tag : Nat
  deriving DecidableEq, Repr

/-- `FSubjectInfo` from LiveLinkBridge.h: property-name list plus the derived
expected property count. -/
structure FSubjectInfo where
  PropertyNames : List FName
  ExpectedPropertyCount : Nat
  deriving DecidableEq, Repr

/-- The default constructor `FSubjectInfo()`: empty schema, count 0. -/
def FSubjectInfo.empty : FSubjectInfo := ⟨[], 0⟩

/-- The constructor `FSubjectInfo(InPropertyNames)`: stores the names and their
number. -/
def FSubjectInfo.ofNames (ns : List FName) : FSubjectInfo := ⟨ns, ns.length⟩

/-! Association-list model of `TMap`. -/

def mapFind {K V : Type} [DecidableEq K] : List (K × V) → K → Option V
  | [], _ => none
  | (k₁, v) :: rest, k => if k₁ = k then some v else mapFind rest k

def mapContains {K V : Type} [DecidableEq K] (m : List (K × V)) (k : K) : Bool :=
  (mapFind m k).isSome

/-- `TMap::Add`: replaces the value under an existing key, otherwise appends. -/
def mapAdd {K V : Type} [DecidableEq K] (m : List (K × V)) (k : K) (v : V) :
    List (K × V) :=
  if (mapFind m k).isSome then
    m.map (fun p => if p.1 = k then (k, v) else p)
  else
    m ++ [(k, v)]

/-- `TMap::Remove`: drops every entry under the key and returns the new map with
the number of removed entries. -/
def mapRemove {K V : Type} [DecidableEq K] (m : List (K × V)) (k : K) :
    List (K × V) × Nat :=
  (m.filter (fun p => decide (p.1 ≠ k)), m.countP (fun p => decide (p.1 = k)))

/-- The mutable state of the `FLiveLinkBridge` singleton (member variables of
LiveLinkBridge.h, with the validity of the `LiveLinkProvider` shared pointer as a
Bool and the process-wide static `bGEngineLoopInitialized` included). -/
structure BridgeState where
  bInitialized : Bool
  ProviderName : String
  bLiveLinkReady : Bool
  LiveLinkProviderValid : Bool
  bLiveLinkSourceCreated : Bool
  bGEngineLoopInitialized : Bool
  TransformSubjects : List (FName × FSubjectInfo)
  DataSubjects : List (FName × FSubjectInfo)
  NameCache : List (String × FName)
  deriving DecidableEq, Repr

/-- The freshly constructed singleton: every flag false, every container empty. -/
def initialState : BridgeState :=
  { bInitialized := false
    ProviderName := ""
    bLiveLinkReady := false
    LiveLinkProviderValid := false
    bLiveLinkSourceCreated := false
    bGEngineLoopInitialized := false
    TransformSubjects := []
    DataSubjects := []
    NameCache := [] }

/-- Diagnostic conditions reported through UE_LOG on the rejection/error paths.
Throttled and purely informational log lines are not modelled. -/
inductive Report where
  | notInitializedReport (op : String)
  | alreadyRegistered (op : String) (subject : FName)
  | schemaMismatch (op : String) (subject : FName) (expected actual : Nat)
  | notRegisteredCannotValidate (op : String) (subject : FName)
  | sourceNotAvailable (op : String) (subject : FName)
  | createProviderFailed
  | nothingToDo
  | nullArgument (op : String) (arg : String)
  | negativeCount (op : String) (count : Int)
  | emptyProviderName (op : String)
  | preInitFailed
  | subjectNotFound (op : String) (subject : FName)
  deriving DecidableEq, Repr

/-- Calls made on the external `ILiveLinkProvider` transport collaborator. -/
inductive TransportEvent where
  | createLiveLinkProvider (providerName : String)
  | updateSubjectStaticData (subject : FName) (propertyNames : List FName)
  | updateSubjectFrameData (subject : FName) (transform : FTransformPayload)
      (propertyValues : List FloatValue)
  | removeSubject (subject : FName)
  deriving DecidableEq, Repr

/-- Result of one bridge or call-surface operation: the new bridge state, the
transport calls made, and the conditions reported. -/
structure OpResult where
  state : BridgeState
  events : List TransportEvent
  reports : List Report
  deriving DecidableEq, Repr

/-! The bridge operations (LiveLinkBridge.cpp). -/

/-- `FLiveLinkBridge::EnsureLiveLinkSource` (caller holds the lock): if the
provider already exists do nothing, otherwise attempt to create it; on failure
leave `bLiveLinkSourceCreated` false. -/
def EnsureLiveLinkSource (createOk : Bool) (st : BridgeState) : OpResult :=
  if st.bLiveLinkSourceCreated then ⟨st, [], []⟩
  else if createOk then
    ⟨{ st with LiveLinkProviderValid := true, bLiveLinkSourceCreated := true },
     [.createLiveLinkProvider st.ProviderName], []⟩
  else
    ⟨{ st with LiveLinkProviderValid := false },
     [.createLiveLinkProvider st.ProviderName], [.createProviderFailed]⟩

/-- `FLiveLinkBridge::RegisterTransformSubject`. -/
def RegisterTransformSubject (createOk : Bool) (st : BridgeState)
    (SubjectName : FName) : OpResult :=
  if !st.bInitialized then
    ⟨st, [], [.notInitializedReport "RegisterTransformSubject"]⟩
  else if mapContains st.TransformSubjects SubjectName then
    ⟨st, [], [.alreadyRegistered "RegisterTransformSubject" SubjectName]⟩
  else
    let r := EnsureLiveLinkSource createOk st
    let newMap := mapAdd r.state.TransformSubjects SubjectName FSubjectInfo.empty
    if !r.state.bLiveLinkSourceCreated then
      ⟨{ r.state with TransformSubjects := newMap },
       r.events,
       r.reports ++ [.sourceNotAvailable "RegisterTransformSubject" SubjectName]⟩
    else
      ⟨{ r.state with TransformSubjects := newMap },
       r.events ++ [.updateSubjectStaticData SubjectName []],
       r.reports⟩

/-- `FLiveLinkBridge::RegisterTransformSubjectWithProperties`. -/
def RegisterTransformSubjectWithProperties (createOk : Bool) (st : BridgeState)
    (SubjectName : FName) (PropertyNames : List FName) : OpResult :=
  if !st.bInitialized then
    ⟨st, [], [.notInitializedReport "RegisterTransformSubjectWithProperties"]⟩
  else if mapContains st.TransformSubjects SubjectName then
    ⟨st, [], [.alreadyRegistered "RegisterTransformSubjectWithProperties" SubjectName]⟩
  else
    let r := EnsureLiveLinkSource createOk st
    let newMap :=
      mapAdd r.state.TransformSubjects SubjectName
        (FSubjectInfo.ofNames PropertyNames)
    if !r.state.bLiveLinkSourceCreated then
      ⟨{ r.state with TransformSubjects := newMap },
       r.events,
       r.reports ++
         [.sourceNotAvailable "RegisterTransformSubjectWithProperties" SubjectName]⟩
    else
      ⟨{ r.state with TransformSubjects := newMap },
       r.events ++ [.updateSubjectStaticData SubjectName PropertyNames],
       r.reports⟩

/-- `FLiveLinkBridge::UpdateTransformSubject`: auto-registers an absent subject
(via `RegisterTransformSubject`), then pushes a pose-only frame if the provider
exists. -/
def UpdateTransformSubject (createOk : Bool) (st : BridgeState)
    (SubjectName : FName) (Transform : FTransformPayload) : OpResult :=
  if !st.bInitialized then ⟨st, [], []⟩
  else
    let r :=
      if !(mapContains st.TransformSubjects SubjectName) then
        RegisterTransformSubject createOk st SubjectName
      else ⟨st, [], []⟩
    if !r.state.bLiveLinkSourceCreated then ⟨r.state, r.events, r.reports⟩
    else
      ⟨r.state,
       r.events ++ [.updateSubjectFrameData SubjectName Transform []],
       r.reports⟩

/-- `FLiveLinkBridge::UpdateTransformSubjectWithProperties`: validates the value
count against the stored schema of a registered subject (dropping the update on
mismatch); an unregistered subject is reported but still pushed. -/
def UpdateTransformSubjectWithProperties (st : BridgeState) (SubjectName : FName)
    (Transform : FTransformPayload) (PropertyValues : List FloatValue) : OpResult :=
  if !st.bInitialized then ⟨st, [], []⟩
  else
    match mapFind st.TransformSubjects SubjectName with
    | some SubjectInfo =>
      if SubjectInfo.ExpectedPropertyCount ≠ PropertyValues.length then
        ⟨st, [],
         [.schemaMismatch "UpdateTransformSubjectWithProperties" SubjectName
            SubjectInfo.ExpectedPropertyCount PropertyValues.length]⟩
      else if !st.bLiveLinkSourceCreated then ⟨st, [], []⟩
      else
        ⟨st, [.updateSubjectFrameData SubjectName Transform PropertyValues], []⟩
    | none =>
      if !st.bLiveLinkSourceCreated then
        ⟨st, [],
         [.notRegisteredCannotValidate "UpdateTransformSubjectWithProperties"
            SubjectName]⟩
      else
        ⟨st, [.updateSubjectFrameData SubjectName Transform PropertyValues],
         [.notRegisteredCannotValidate "UpdateTransformSubjectWithProperties"
            SubjectName]⟩

/-- `FLiveLinkBridge::RemoveTransformSubject`. -/
def RemoveTransformSubject (st : BridgeState) (SubjectName : FName) : OpResult :=
  if !st.bInitialized then
    ⟨st, [], [.notInitializedReport "RemoveTransformSubject"]⟩
  else
    let rm := mapRemove st.TransformSubjects SubjectName
    if rm.2 > 0 then
      let st₁ := { st with TransformSubjects := rm.1 }
      if st₁.bLiveLinkSourceCreated && st₁.LiveLinkProviderValid then
        ⟨st₁, [.removeSubject SubjectName], []⟩
      else ⟨st₁, [], []⟩
    else ⟨st, [], [.subjectNotFound "RemoveTransformSubject" SubjectName]⟩

/-- `FLiveLinkBridge::RegisterDataSubject`: records the schema locally only; the
transport registration is a TODO in the source, so no transport event occurs. -/
def RegisterDataSubject (st : BridgeState) (SubjectName : FName)
    (PropertyNames : List FName) : OpResult :=
  if !st.bInitialized then
    ⟨st, [], [.notInitializedReport "RegisterDataSubject"]⟩
  else if mapContains st.DataSubjects SubjectName then
    ⟨st, [], [.alreadyRegistered "RegisterDataSubject" SubjectName]⟩
  else
    let newMap := mapAdd st.DataSubjects SubjectName (FSubjectInfo.ofNames PropertyNames)
    ⟨{ st with DataSubjects := newMap }, [], []⟩

/-- `FLiveLinkBridge::UpdateDataSubject`: validates the value count against the
stored schema; the frame push is a TODO in the source, so no transport event
occurs even on success. -/
def UpdateDataSubject (st : BridgeState) (SubjectName : FName)
    (PropertyValues : List FloatValue) : OpResult :=
  if !st.bInitialized then ⟨st, [], []⟩
  else
    match mapFind st.DataSubjects SubjectName with
    | some SubjectInfo =>
      if SubjectInfo.ExpectedPropertyCount ≠ PropertyValues.length then
        ⟨st, [],
         [.schemaMismatch "UpdateDataSubject" SubjectName
            SubjectInfo.ExpectedPropertyCount PropertyValues.length]⟩
      else ⟨st, [], []⟩
    | none =>
      ⟨st, [], [.notRegisteredCannotValidate "UpdateDataSubject" SubjectName]⟩

/-- `FLiveLinkBridge::RemoveDataSubject`: removes the record locally only; the
transport removal is a TODO in the source. -/
def RemoveDataSubject (st : BridgeState) (SubjectName : FName) : OpResult :=
  if !st.bInitialized then
    ⟨st, [], [.notInitializedReport "RemoveDataSubject"]⟩
  else
    let rm := mapRemove st.DataSubjects SubjectName
    if rm.2 > 0 then ⟨{ st with DataSubjects := rm.1 }, [], []⟩
    else ⟨st, [], [.subjectNotFound "RemoveDataSubject" SubjectName]⟩

/-- `FLiveLinkBridge::GetCachedName`: NULL or empty input yields `NAME_None`
without touching the cache; otherwise a cache hit returns the stored name and a
miss stores and returns the freshly made name. -/
def GetCachedName (st : BridgeState) (cString : Option String) :
    FName × BridgeState :=
  match cString with
  | none => (NAME_None, st)
  | some s =>
    if s = "" then (NAME_None, st)
    else
      match mapFind st.NameCache s with
      | some CachedName => (CachedName, st)
      | none => (s, { st with NameCache := mapAdd st.NameCache s s })

/-- `FLiveLinkBridge::Initialize`: idempotent when already initialized; on the
very first call of the process `GEngineLoop.PreInit` must succeed (`preInitOk`);
on success stores the provider name and sets `bInitialized` and `bLiveLinkReady`
together.  Returns the `bool` result, the new state and the reports. -/
def Initialize (preInitOk : Bool) (st : BridgeState) (InProviderName : String) :
    Bool × BridgeState × List Report :=
  if st.bInitialized then (true, st, [])
  else if !st.bGEngineLoopInitialized && !preInitOk then
    (false, st, [.preInitFailed])
  else
    (true,
     { st with
         bGEngineLoopInitialized := true
         ProviderName := InProviderName
         bInitialized := true
         bLiveLinkReady := true },
     [])

/-- `FLiveLinkBridge::Shutdown`: a no-op (reported, not an error) when not
initialized; otherwise destroys the provider if one exists, clears both subject
maps, the name cache and the provider name, and clears `bInitialized` and
`bLiveLinkReady`. -/
def Shutdown (st : BridgeState) : BridgeState × List Report :=
  if !st.bInitialized then (st, [.nothingToDo])
  else
    let st₁ :=
      if st.bLiveLinkSourceCreated && st.LiveLinkProviderValid then
        { st with LiveLinkProviderValid := false, bLiveLinkSourceCreated := false }
      else st
    ({ st₁ with
         TransformSubjects := []
         DataSubjects := []
         NameCache := []
         ProviderName := ""
         bInitialized := false
         bLiveLinkReady := false },
     [])

/-- `FLiveLinkBridge::GetConnectionStatus`. -/
def GetConnectionStatus (st : BridgeState) : Int :=
  if !st.bInitialized then ULL_NOT_INITIALIZED
  else if st.bLiveLinkSourceCreated && st.LiveLinkProviderValid then ULL_OK
  else if st.bLiveLinkReady then ULL_OK
  else ULL_NOT_CONNECTED

/-! The exported C call surface (UnrealLiveLink.API.cpp).  A `const char*` is an
`Option String` (`none` = NULL); a C array is an `Option` of an index function. -/

/-- Helper `ConvertPropertyNames`: reads `propertyNames[0..propertyCount)`,
interning each non-NULL entry through `GetCachedName` (which mutates the shared
cache) and mapping a NULL entry to `NAME_None`.  The `none` array branch is only
reachable from callers that have already established `propertyCount ≤ 0`, where
the loop body never runs. -/
def ConvertPropertyNames (st : BridgeState)
    (propertyNames : Option (Nat → Option String)) (propertyCount : Nat) :
    List FName × BridgeState :=
  match propertyNames with
  | none => ([], st)
  | some arr =>
    (List.range propertyCount).foldl
      (fun acc i =>
        match arr i with
        | some p =>
          let r := GetCachedName acc.2 (some p)
          (acc.1 ++ [r.1], r.2)
        | none => (acc.1 ++ [NAME_None], acc.2))
      ([], st)

/-- Helper `ConvertPropertyValues`: copies `propertyValues[0..propertyCount)`.
A non-positive count makes the loop body never run. -/
def ConvertPropertyValues (propertyValues : Option (Nat → FloatValue))
    (propertyCount : Nat) : List FloatValue :=
  match propertyValues with
  | none => []
  | some arr => (List.range propertyCount).map arr

/-- `ULL_Initialize`: rejects NULL and empty provider names with `ULL_ERROR`,
otherwise delegates to `FLiveLinkBridge::Initialize` and maps its bool to
`ULL_OK` / `ULL_ERROR`. -/
def ULL_Initialize (preInitOk : Bool) (st : BridgeState)
    (providerName : Option String) : Int × BridgeState × List Report :=
  match providerName with
  | none => (ULL_ERROR, st, [.nullArgument "ULL_Initialize" "providerName"])
  | some s =>
    if s = "" then (ULL_ERROR, st, [.emptyProviderName "ULL_Initialize"])
    else
      let r := Initialize preInitOk st s
      (if r.1 then ULL_OK else ULL_ERROR, r.2.1, r.2.2)

/-- `ULL_Shutdown`: delegates to `FLiveLinkBridge::Shutdown`. -/
def ULL_Shutdown (st : BridgeState) : BridgeState × List Report := Shutdown st

/-- `ULL_GetVersion`. -/
def ULL_GetVersion : Int := ULL_API_VERSION

/-- `ULL_IsConnected`: delegates to `FLiveLinkBridge::GetConnectionStatus`. -/
def ULL_IsConnected (st : BridgeState) : Int := GetConnectionStatus st

/-- `ULL_RegisterObject`: NULL name rejected; otherwise interns the name (cache
mutation happens even when the bridge is not initialized) and delegates. -/
def ULL_RegisterObject (createOk : Bool) (st : BridgeState)
    (subjectName : Option String) : OpResult :=
  match subjectName with
  | none => ⟨st, [], [.nullArgument "ULL_RegisterObject" "subjectName"]⟩
  | some s =>
    let c := GetCachedName st (some s)
    RegisterTransformSubject createOk c.2 c.1

/-- `ULL_RegisterObjectWithProperties`: rejects a NULL name, a NULL name array
with a positive count, and a negative count — all before any state mutation. -/
def ULL_RegisterObjectWithProperties (createOk : Bool) (st : BridgeState)
    (subjectName : Option String) (propertyNames : Option (Nat → Option String))
    (propertyCount : Int) : OpResult :=
  match subjectName with
  | none =>
    ⟨st, [], [.nullArgument "ULL_RegisterObjectWithProperties" "subjectName"]⟩
  | some s =>
    if propertyCount > 0 && propertyNames.isNone then
      ⟨st, [], [.nullArgument "ULL_RegisterObjectWithProperties" "propertyNames"]⟩
    else if propertyCount < 0 then
      ⟨st, [], [.negativeCount "ULL_RegisterObjectWithProperties" propertyCount]⟩
    else
      let c := GetCachedName st (some s)
      let pn := ConvertPropertyNames c.2 propertyNames propertyCount.toNat
      RegisterTransformSubjectWithProperties createOk pn.2 c.1 pn.1

/-- `ULL_UpdateObject`: NULL name or NULL transform rejected; otherwise interns
the name and delegates. -/
def ULL_UpdateObject (createOk : Bool) (st : BridgeState)
    (subjectName : Option String) (transform : Option FTransformPayload) :
    OpResult :=
  match subjectName with
  | none => ⟨st, [], [.nullArgument "ULL_UpdateObject" "subjectName"]⟩
  | some s =>
    match transform with
    | none => ⟨st, [], [.nullArgument "ULL_UpdateObject" "transform"]⟩
    | some t =>
      let c := GetCachedName st (some s)
      UpdateTransformSubject createOk c.2 c.1 t

/-- `ULL_UpdateObjectWithProperties`: rejects a NULL name, a NULL transform, and
a NULL value array with a positive count.  Unlike the other counted entry
points, the source has no negative-count check here: a negative count flows into
`ConvertPropertyValues`, whose loop never runs, so the bridge sees an empty
value list. -/
def ULL_UpdateObjectWithProperties (st : BridgeState)
    (subjectName : Option String) (transform : Option FTransformPayload)
    (propertyValues : Option (Nat → FloatValue)) (propertyCount : Int) :
    OpResult :=
  match subjectName with
  | none =>
    ⟨st, [], [.nullArgument "ULL_UpdateObjectWithProperties" "subjectName"]⟩
  | some s =>
    match transform with
    | none =>
      ⟨st, [], [.nullArgument "ULL_UpdateObjectWithProperties" "transform"]⟩
    | some t =>
      if propertyCount > 0 && propertyValues.isNone then
        ⟨st, [],
         [.nullArgument "ULL_UpdateObjectWithProperties" "propertyValues"]⟩
      else
        let c := GetCachedName st (some s)
        UpdateTransformSubjectWithProperties c.2 c.1 t
          (ConvertPropertyValues propertyValues propertyCount.toNat)

/-- `ULL_RemoveObject`. -/
def ULL_RemoveObject (st : BridgeState) (subjectName : Option String) : OpResult :=
  match subjectName with
  | none => ⟨st, [], [.nullArgument "ULL_RemoveObject" "subjectName"]⟩
  | some s =>
    let c := GetCachedName st (some s)
    RemoveTransformSubject c.2 c.1

/-- `ULL_RegisterDataSubject`: same pre-checks as
`ULL_RegisterObjectWithProperties`, including the negative-count rejection. -/
def ULL_RegisterDataSubject (st : BridgeState) (subjectName : Option String)
    (propertyNames : Option (Nat → Option String)) (propertyCount : Int) :
    OpResult :=
  match subjectName with
  | none => ⟨st, [], [.nullArgument "ULL_RegisterDataSubject" "subjectName"]⟩
  | some s =>
    if propertyCount > 0 && propertyNames.isNone then
      ⟨st, [], [.nullArgument "ULL_RegisterDataSubject" "propertyNames"]⟩
    else if propertyCount < 0 then
      ⟨st, [], [.negativeCount "ULL_RegisterDataSubject" propertyCount]⟩
    else
      let c := GetCachedName st (some s)
      let pn := ConvertPropertyNames c.2 propertyNames propertyCount.toNat
      RegisterDataSubject pn.2 c.1 pn.1

/-- `ULL_UpdateDataSubject`: rejects a NULL name, a NULL value array with a
positive count, and a negative count; the `propertyNames` argument is accepted
and ignored, exactly as in the source. -/
def ULL_UpdateDataSubject (st : BridgeState) (subjectName : Option String)
    (propertyNames : Option (Nat → Option String))
    (propertyValues : Option (Nat → FloatValue)) (propertyCount : Int) :
    OpResult :=
  match subjectName with
  | none => ⟨st, [], [.nullArgument "ULL_UpdateDataSubject" "subjectName"]⟩
  | some s =>
    if propertyCount > 0 && propertyValues.isNone then
      ⟨st, [], [.nullArgument "ULL_UpdateDataSubject" "propertyValues"]⟩
    else if propertyCount < 0 then
      ⟨st, [], [.negativeCount "ULL_UpdateDataSubject" propertyCount]⟩
    else
      let c := GetCachedName st (some s)
      UpdateDataSubject c.2 c.1
        (ConvertPropertyValues propertyValues propertyCount.toNat)

/-- `ULL_RemoveDataSubject`. -/
def ULL_RemoveDataSubject (st : BridgeState) (subjectName : Option String) :
    OpResult :=
  match subjectName with
  | none => ⟨st, [], [.nullArgument "ULL_RemoveDataSubject" "subjectName"]⟩
  | some s =>
    let c := GetCachedName st (some s)
    RemoveDataSubject c.2 c.1

/-! Concrete states used by the closed theorems below. -/

/-- The bridge right after a successful `Initialize("Sim")`: initialized and
ready, but with no transport handle yet (the deferred-creation window). -/
def stReady : BridgeState := (Initialize true initialState "Sim").2.1

/-- `stReady` after a successful `RegisterTransformSubject("A")`: the provider
now exists and the transform subject "A" is registered with an empty schema. -/
def stConnectedA : BridgeState := (RegisterTransformSubject true stReady "A").state

/-- `stConnectedA` after `RegisterDataSubject("D", ["p"])`: the data subject "D"
is registered with a one-property schema. -/
def stDataD : BridgeState := (RegisterDataSubject stConnectedA "D" ["p"]).state

/-- `stReady` after `RegisterTransformSubjectWithProperties("A", ["p"])`: the
transform subject "A" is registered with a one-property schema. -/
def stPropA : BridgeState :=
  (RegisterTransformSubjectWithProperties true stReady "A" ["p"]).state

/-- `stPropA` after `RegisterDataSubject("D", ["q"])`: additionally the data
subject "D" has a one-property schema. -/
def stPropAD : BridgeState := (RegisterDataSubject stPropA "D" ["q"]).state

/-! Reachability: every state the singleton can be in, starting from the fresh
instance and applying any sequence of public bridge operations (the exported
call surface only composes these). -/

/-- One public bridge operation, with arbitrary arguments and arbitrary
environment behaviour (`createOk` / `preInitOk`). -/
inductive Step : BridgeState → BridgeState → Prop where
  | initStep (ok : Bool) (n : String) (st : BridgeState) :
      Step st (Initialize ok st n).2.1
  | shutdownStep (st : BridgeState) : Step st (Shutdown st).1
  | registerTransformStep (c : Bool) (n : FName) (st : BridgeState) :
      Step st (RegisterTransformSubject c st n).state
  | registerTransformWithPropertiesStep (c : Bool) (n : FName) (ps : List FName)
      (st : BridgeState) :
      Step st (RegisterTransformSubjectWithProperties c st n ps).state
  | updateTransformStep (c : Bool) (n : FName) (t : FTransformPayload)
      (st : BridgeState) : Step st (UpdateTransformSubject c st n t).state
  | updateTransformWithPropertiesStep (n : FName) (t : FTransformPayload)
      (vs : List FloatValue) (st : BridgeState) :
      Step st (UpdateTransformSubjectWithProperties st n t vs).state
  | removeTransformStep (n : FName) (st : BridgeState) :
      Step st (RemoveTransformSubject st n).state
  | registerDataStep (n : FName) (ps : List FName) (st : BridgeState) :
      Step st (RegisterDataSubject st n ps).state
  | updateDataStep (n : FName) (vs : List FloatValue) (st : BridgeState) :
      Step st (UpdateDataSubject st n vs).state
  | removeDataStep (n : FName) (st : BridgeState) :
      Step st (RemoveDataSubject st n).state
  | getCachedNameStep (c : Option String) (st : BridgeState) :
      Step st (GetCachedName st c).2

/-- A state is reachable when some sequence of bridge operations produces it
from the fresh singleton. -/
def Reachable (st : BridgeState) : Prop :=
  Relation.ReflTransGen Step initialState st

/-- The implicit flag coupling: whenever the bridge is initialized, the
LiveLink-ready flag is set (Initialize sets both together, Shutdown clears both
together). -/
def ReadyInvariant (st : BridgeState) : Prop :=
  st.bInitialized = true → st.bLiveLinkReady = true

/-! Helper lemmas about the map model. -/

theorem mapFind_replace {K V : Type} [DecidableEq K] (m : List (K × V)) (k : K)
    (v : V) :
    mapFind (m.map (fun p => if p.1 = k then (k, v) else p)) k =
      if (mapFind m k).isSome then some v else none := by
  induction m with
  | nil => simp [mapFind]
  | cons p rest ih =>
    rcases p with ⟨k₁, v₁⟩
    rw [List.map_cons]
    by_cases h : k₁ = k
    · subst h
      have hf : (if ((k₁, v₁) : K × V).1 = k₁ then (k₁, v) else (k₁, v₁)) =
          (k₁, v) := by simp
      rw [hf]
      simp [mapFind]
    · have hf : (if ((k₁, v₁) : K × V).1 = k then (k, v) else (k₁, v₁)) =
          (k₁, v₁) := by simp [h]
      rw [hf]
      simp [mapFind, h, ih]

theorem mapFind_append_single {K V : Type} [DecidableEq K] (m : List (K × V))
    (k : K) (v : V) (h : mapFind m k = none) :
    mapFind (m ++ [(k, v)]) k = some v := by
  induction m with
  | nil => simp [mapFind]
  | cons p rest ih =>
    rcases p with ⟨k₁, v₁⟩
    by_cases hp : k₁ = k
    · subst hp
      simp [mapFind] at h
    · rw [List.cons_append]
      unfold mapFind at h ⊢
      rw [if_neg hp] at h ⊢
      exact ih h

theorem mapFind_mapAdd_self {K V : Type} [DecidableEq K] (m : List (K × V))
    (k : K) (v : V) : mapFind (mapAdd m k v) k = some v := by
  unfold mapAdd
  by_cases h : (mapFind m k).isSome
  · simp only [h, if_true]
    rw [mapFind_replace]
    simp [h]
  · simp only [h, if_false]
    exact mapFind_append_single m k v (Option.not_isSome_iff_eq_none.mp h)

theorem ConvertPropertyValues_zero (pv : Option (Nat → FloatValue)) :
    ConvertPropertyValues pv 0 = [] := by
  cases pv <;> simp [ConvertPropertyValues]

/-! Field-preservation lemmas: which bridge operations leave which member
variables untouched. -/

theorem GetCachedName_preserves (st : BridgeState) (c : Option String) :
    (GetCachedName st c).2.bInitialized = st.bInitialized ∧
    (GetCachedName st c).2.bLiveLinkReady = st.bLiveLinkReady ∧
    (GetCachedName st c).2.bLiveLinkSourceCreated = st.bLiveLinkSourceCreated ∧
    (GetCachedName st c).2.LiveLinkProviderValid = st.LiveLinkProviderValid ∧
    (GetCachedName st c).2.TransformSubjects = st.TransformSubjects ∧
    (GetCachedName st c).2.DataSubjects = st.DataSubjects := by
  unfold GetCachedName
  cases c with
  | none => exact ⟨rfl, rfl, rfl, rfl, rfl, rfl⟩
  | some s =>
    dsimp only
    split
    · exact ⟨rfl, rfl, rfl, rfl, rfl, rfl⟩
    · split <;> exact ⟨rfl, rfl, rfl, rfl, rfl, rfl⟩

theorem EnsureLiveLinkSource_preserves (c : Bool) (st : BridgeState) :
    (EnsureLiveLinkSource c st).state.bInitialized = st.bInitialized ∧
    (EnsureLiveLinkSource c st).state.bLiveLinkReady = st.bLiveLinkReady ∧
    (EnsureLiveLinkSource c st).state.TransformSubjects = st.TransformSubjects ∧
    (EnsureLiveLinkSource c st).state.DataSubjects = st.DataSubjects ∧
    (EnsureLiveLinkSource c st).state.NameCache = st.NameCache ∧
    (EnsureLiveLinkSource c st).state.bGEngineLoopInitialized =
      st.bGEngineLoopInitialized := by
  unfold EnsureLiveLinkSource
  split
  · exact ⟨rfl, rfl, rfl, rfl, rfl, rfl⟩
  · split <;> exact ⟨rfl, rfl, rfl, rfl, rfl, rfl⟩

theorem RegisterTransformSubject_preserves (c : Bool) (st : BridgeState)
    (n : FName) :
    (RegisterTransformSubject c st n).state.bInitialized = st.bInitialized ∧
    (RegisterTransformSubject c st n).state.bLiveLinkReady = st.bLiveLinkReady ∧
    (RegisterTransformSubject c st n).state.DataSubjects = st.DataSubjects ∧
    (RegisterTransformSubject c st n).state.NameCache = st.NameCache := by
  unfold RegisterTransformSubject
  split
  · exact ⟨rfl, rfl, rfl, rfl⟩
  split
  · exact ⟨rfl, rfl, rfl, rfl⟩
  have h := EnsureLiveLinkSource_preserves c st
  dsimp only
  split <;>
    exact ⟨h.1, h.2.1, h.2.2.2.1, h.2.2.2.2.1⟩

theorem RegisterTransformSubjectWithProperties_preserves (c : Bool)
    (st : BridgeState) (n : FName) (ps : List FName) :
    (RegisterTransformSubjectWithProperties c st n ps).state.bInitialized =
      st.bInitialized ∧
    (RegisterTransformSubjectWithProperties c st n ps).state.bLiveLinkReady =
      st.bLiveLinkReady ∧
    (RegisterTransformSubjectWithProperties c st n ps).state.DataSubjects =
      st.DataSubjects ∧
    (RegisterTransformSubjectWithProperties c st n ps).state.NameCache =
      st.NameCache := by
  unfold RegisterTransformSubjectWithProperties
  split
  · exact ⟨rfl, rfl, rfl, rfl⟩
  split
  · exact ⟨rfl, rfl, rfl, rfl⟩
  have h := EnsureLiveLinkSource_preserves c st
  dsimp only
  split <;>
    exact ⟨h.1, h.2.1, h.2.2.2.1, h.2.2.2.2.1⟩

theorem UpdateTransformSubject_preserves (c : Bool) (st : BridgeState)
    (n : FName) (t : FTransformPayload) :
    (UpdateTransformSubject c st n t).state.bInitialized = st.bInitialized ∧
    (UpdateTransformSubject c st n t).state.bLiveLinkReady = st.bLiveLinkReady ∧
    (UpdateTransformSubject c st n t).state.DataSubjects = st.DataSubjects ∧
    (UpdateTransformSubject c st n t).state.NameCache = st.NameCache := by
  unfold UpdateTransformSubject
  split
  · exact ⟨rfl, rfl, rfl, rfl⟩
  dsimp only
  have h := RegisterTransformSubject_preserves c st n
  split <;> split <;> first
    | exact ⟨h.1, h.2.1, h.2.2.1, h.2.2.2⟩
    | exact ⟨rfl, rfl, rfl, rfl⟩

theorem UpdateTransformSubjectWithProperties_state (st : BridgeState) (n : FName)
    (t : FTransformPayload) (vs : List FloatValue) :
    (UpdateTransformSubjectWithProperties st n t vs).state = st := by
  unfold UpdateTransformSubjectWithProperties
  split
  · rfl
  split <;> (try split) <;> (try split) <;> rfl

theorem RemoveTransformSubject_preserves (st : BridgeState) (n : FName) :
    (RemoveTransformSubject st n).state.bInitialized = st.bInitialized ∧
    (RemoveTransformSubject st n).state.bLiveLinkReady = st.bLiveLinkReady ∧
    (RemoveTransformSubject st n).state.DataSubjects = st.DataSubjects ∧
    (RemoveTransformSubject st n).state.NameCache = st.NameCache := by
  unfold RemoveTransformSubject
  split
  · exact ⟨rfl, rfl, rfl, rfl⟩
  dsimp only
  split <;> (try split) <;> exact ⟨rfl, rfl, rfl, rfl⟩

theorem RegisterDataSubject_preserves (st : BridgeState) (n : FName)
    (ps : List FName) :
    (RegisterDataSubject st n ps).state.bInitialized = st.bInitialized ∧
    (RegisterDataSubject st n ps).state.bLiveLinkReady = st.bLiveLinkReady ∧
    (RegisterDataSubject st n ps).state.TransformSubjects =
      st.TransformSubjects ∧
    (RegisterDataSubject st n ps).state.NameCache = st.NameCache := by
  unfold RegisterDataSubject
  split
  · exact ⟨rfl, rfl, rfl, rfl⟩
  split <;> exact ⟨rfl, rfl, rfl, rfl⟩

theorem UpdateDataSubject_state (st : BridgeState) (n : FName)
    (vs : List FloatValue) : (UpdateDataSubject st n vs).state = st := by
  unfold UpdateDataSubject
  split
  · rfl
  split <;> (try split) <;> rfl

theorem RemoveDataSubject_preserves (st : BridgeState) (n : FName) :
    (RemoveDataSubject st n).state.bInitialized = st.bInitialized ∧
    (RemoveDataSubject st n).state.bLiveLinkReady = st.bLiveLinkReady ∧
    (RemoveDataSubject st n).state.TransformSubjects = st.TransformSubjects ∧
    (RemoveDataSubject st n).state.NameCache = st.NameCache := by
  unfold RemoveDataSubject
  split
  · exact ⟨rfl, rfl, rfl, rfl⟩
  dsimp only
  split <;> exact ⟨rfl, rfl, rfl, rfl⟩

/-! The flag-coupling invariant is preserved by every bridge operation. -/

theorem step_preserves_ready {s₁ s₂ : BridgeState} (h : Step s₁ s₂)
    (hs : ReadyInvariant s₁) : ReadyInvariant s₂ := by
  cases h with
  | initStep ok n =>
    unfold ReadyInvariant Initialize
    split
    · exact hs
    split
    · exact hs
    · intro _
      rfl
  | shutdownStep =>
    unfold ReadyInvariant Shutdown
    split
    · exact hs
    · dsimp only
      intro hi
      simp at hi
  | registerTransformStep c n =>
    have h := RegisterTransformSubject_preserves c s₁ n
    intro hi
    rw [h.1] at hi
    rw [h.2.1]
    exact hs hi
  | registerTransformWithPropertiesStep c n ps =>
    have h := RegisterTransformSubjectWithProperties_preserves c s₁ n ps
    intro hi
    rw [h.1] at hi
    rw [h.2.1]
    exact hs hi
  | updateTransformStep c n t =>
    have h := UpdateTransformSubject_preserves c s₁ n t
    intro hi
    rw [h.1] at hi
    rw [h.2.1]
    exact hs hi
  | updateTransformWithPropertiesStep n t vs =>
    rw [show (UpdateTransformSubjectWithProperties s₁ n t vs).state = s₁ from
          UpdateTransformSubjectWithProperties_state s₁ n t vs]
    exact hs
  | removeTransformStep n =>
    have h := RemoveTransformSubject_preserves s₁ n
    intro hi
    rw [h.1] at hi
    rw [h.2.1]
    exact hs hi
  | registerDataStep n ps =>
    have h := RegisterDataSubject_preserves s₁ n ps
    intro hi
    rw [h.1] at hi
    rw [h.2.1]
    exact hs hi
  | updateDataStep n vs =>
    rw [show (UpdateDataSubject s₁ n vs).state = s₁ from
          UpdateDataSubject_state s₁ n vs]
    exact hs
  | removeDataStep n =>
    have h := RemoveDataSubject_preserves s₁ n
    intro hi
    rw [h.1] at hi
    rw [h.2.1]
    exact hs hi
  | getCachedNameStep c =>
    have h := GetCachedName_preserves s₁ c
    intro hi
    rw [h.1] at hi
    rw [h.2.1]
    exact hs hi

theorem reachable_ready {st : BridgeState} (h : Reachable st) :
    ReadyInvariant st := by
  unfold Reachable at h
  induction h with
  | refl =>
    intro hi
    simp [initialState] at hi
  | tail _ hbc ih => exact step_preserves_ready hbc ih

/-! Shared behaviour lemmas for the individual operations. -/

/-- A schema mismatch on a registered transform subject drops the update:
state unchanged, nothing pushed, the mismatch reported. -/
theorem UpdateTransformSubjectWithProperties_mismatch (st : BridgeState)
    (name : FName) (t : FTransformPayload) (vals : List FloatValue)
    (info : FSubjectInfo) (hInit : st.bInitialized = true)
    (hFind : mapFind st.TransformSubjects name = some info)
    (hMism : info.ExpectedPropertyCount ≠ vals.length) :
    UpdateTransformSubjectWithProperties st name t vals =
      ⟨st, [],
       [.schemaMismatch "UpdateTransformSubjectWithProperties" name
          info.ExpectedPropertyCount vals.length]⟩ := by
  unfold UpdateTransformSubjectWithProperties
  rw [hInit, hFind]
  simp [hMism]

/-- A schema mismatch on a registered data subject drops the update likewise. -/
theorem UpdateDataSubject_mismatch (st : BridgeState) (name : FName)
    (vals : List FloatValue) (info : FSubjectInfo)
    (hInit : st.bInitialized = true)
    (hFind : mapFind st.DataSubjects name = some info)
    (hMism : info.ExpectedPropertyCount ≠ vals.length) :
    UpdateDataSubject st name vals =
      ⟨st, [],
       [.schemaMismatch "UpdateDataSubject" name info.ExpectedPropertyCount
          vals.length]⟩ := by
  unfold UpdateDataSubject
  rw [hInit, hFind]
  simp [hMism]

/-- A matching property count passes validation: no condition is reported. -/
theorem UpdateTransformSubjectWithProperties_valid_reports (st : BridgeState)
    (name : FName) (t : FTransformPayload) (vals : List FloatValue)
    (info : FSubjectInfo) (hInit : st.bInitialized = true)
    (hFind : mapFind st.TransformSubjects name = some info)
    (hMatch : info.ExpectedPropertyCount = vals.length) :
    (UpdateTransformSubjectWithProperties st name t vals).reports = [] := by
  unfold UpdateTransformSubjectWithProperties
  rw [hInit, hFind]
  simp only [hMatch, ne_eq, not_true_eq_false, if_false]
  split <;> (try split) <;> rfl

/-- Registering a fresh transform subject records it with the empty schema and
keeps the bridge initialized. -/
theorem RegisterTransformSubject_state_new (c : Bool) (st : BridgeState)
    (name : FName) (hInit : st.bInitialized = true)
    (hAbs : mapContains st.TransformSubjects name = false) :
    mapFind (RegisterTransformSubject c st name).state.TransformSubjects name =
      some FSubjectInfo.empty ∧
    (RegisterTransformSubject c st name).state.bInitialized = true := by
  refine ⟨?_, by rw [(RegisterTransformSubject_preserves c st name).1, hInit]⟩
  unfold RegisterTransformSubject
  rw [hInit, hAbs]
  simp only [Bool.not_true, Bool.false_eq_true, if_false]
  split <;> exact mapFind_mapAdd_self _ _ _

/-- On an absent subject, `UpdateTransformSubject` changes the state exactly as
the implicit `RegisterTransformSubject` does. -/
theorem UpdateTransformSubject_state_absent (c : Bool) (st : BridgeState)
    (name : FName) (t : FTransformPayload) (hInit : st.bInitialized = true)
    (hAbs : mapContains st.TransformSubjects name = false) :
    (UpdateTransformSubject c st name t).state =
      (RegisterTransformSubject c st name).state := by
  unfold UpdateTransformSubject
  rw [hInit, hAbs]
  simp only [Bool.not_true, Bool.false_eq_true, if_false, Bool.not_false,
    if_true]
  split <;> rfl

/-- `RegisterDataSubject` never talks to the transport. -/
theorem RegisterDataSubject_events (st : BridgeState) (name : FName)
    (ps : List FName) : (RegisterDataSubject st name ps).events = [] := by
  unfold RegisterDataSubject
  split
  · rfl
  split <;> rfl

/-- `UpdateDataSubject` never talks to the transport and never changes state. -/
theorem UpdateDataSubject_events (st : BridgeState) (name : FName)
    (vals : List FloatValue) : (UpdateDataSubject st name vals).events = [] := by
  unfold UpdateDataSubject
  split
  · rfl
  split <;> (try split) <;> rfl

/-- `RemoveDataSubject` never talks to the transport. -/
theorem RemoveDataSubject_events (st : BridgeState) (name : FName) :
    (RemoveDataSubject st name).events = [] := by
  unfold RemoveDataSubject
  split
  · rfl
  dsimp only
  split <;> rfl

/-- Interning a non-empty name leaves it findable in the cache, bound to the
returned token. -/
theorem GetCachedName_caches (st : BridgeState) (s : String) (hs : s ≠ "") :
    mapFind (GetCachedName st (some s)).2.NameCache s =
      some (GetCachedName st (some s)).1 := by
  unfold GetCachedName
  dsimp only
  rw [if_neg hs]
  cases hfind : mapFind st.NameCache s with
  | some n => simp [hfind]
  | none => simp [hfind, mapFind_mapAdd_self]

/-! The claims. -/

/-- Claim C1: while the bridge is initialized, an `UpdateTransformSubjectWithProperties`
on a transform subject registered with an N-property schema and a value list of a
different length drops the update: no frame is pushed to the transport, the state
(hence the stored record and its expected count) is unchanged, and a
schema-mismatch condition is reported with the expected and actual counts.  The
same holds for `UpdateDataSubject` against the DataSubjects map. -/
theorem claim1_schema_mismatch_drops_update (st : BridgeState)
    (nameT nameD : FName) (t : FTransformPayload) (vals : List FloatValue)
    (infoT infoD : FSubjectInfo) (hInit : st.bInitialized = true)
    (hFindT : mapFind st.TransformSubjects nameT = some infoT)
    (hMismT : infoT.ExpectedPropertyCount ≠ vals.length)
    (hFindD : mapFind st.DataSubjects nameD = some infoD)
    (hMismD : infoD.ExpectedPropertyCount ≠ vals.length) :
    UpdateTransformSubjectWithProperties st nameT t vals =
      ⟨st, [],
       [.schemaMismatch "UpdateTransformSubjectWithProperties" nameT
          infoT.ExpectedPropertyCount vals.length]⟩ ∧
    UpdateDataSubject st nameD vals =
      ⟨st, [],
       [.schemaMismatch "UpdateDataSubject" nameD infoD.ExpectedPropertyCount
          vals.length]⟩ :=
  ⟨UpdateTransformSubjectWithProperties_mismatch st nameT t vals infoT hInit
     hFindT hMismT,
   UpdateDataSubject_mismatch st nameD vals infoD hInit hFindD hMismD⟩

/-- Witness for C1: in `stPropAD` the transform subject "A" and the data subject
"D" each expect one property; an empty value list is dropped with a reported
mismatch and the state is unchanged. -/
theorem claim1_schema_mismatch_drops_update_witness :
    stPropAD.bInitialized = true ∧
    mapFind stPropAD.TransformSubjects "A" = some (FSubjectInfo.ofNames ["p"]) ∧
    mapFind stPropAD.DataSubjects "D" = some (FSubjectInfo.ofNames ["q"]) ∧
    (UpdateTransformSubjectWithProperties stPropAD "A" ⟨0⟩ [] =
       ⟨stPropAD, [],
        [.schemaMismatch "UpdateTransformSubjectWithProperties" "A" 1 0]⟩ ∧
     UpdateDataSubject stPropAD "D" [] =
       ⟨stPropAD, [], [.schemaMismatch "UpdateDataSubject" "D" 1 0]⟩) :=
  ⟨by decide, by decide, by decide,
   claim1_schema_mismatch_drops_update stPropAD "A" "D" ⟨0⟩ []
     (FSubjectInfo.ofNames ["p"]) (FSubjectInfo.ofNames ["q"]) (by decide)
     (by decide) (by decide) (by decide) (by decide)⟩

/-- Claim C4: while the bridge is initialized, a second Register call on an
identity already present in its kind-scoped map is a no-op: the state (hence the
schema stored by the first call) is retained, no transport event (in particular
no second schema declaration) is emitted, and the already-registered condition is
reported.  This holds for `RegisterTransformSubject`,
`RegisterTransformSubjectWithProperties` and `RegisterDataSubject`. -/
theorem claim4_reregister_is_noop (createOk : Bool) (st : BridgeState)
    (nameT nameD : FName) (ps psD : List FName)
    (hInit : st.bInitialized = true)
    (hT : mapContains st.TransformSubjects nameT = true)
    (hD : mapContains st.DataSubjects nameD = true) :
    RegisterTransformSubject createOk st nameT =
      ⟨st, [], [.alreadyRegistered "RegisterTransformSubject" nameT]⟩ ∧
    RegisterTransformSubjectWithProperties createOk st nameT ps =
      ⟨st, [],
       [.alreadyRegistered "RegisterTransformSubjectWithProperties" nameT]⟩ ∧
    RegisterDataSubject st nameD psD =
      ⟨st, [], [.alreadyRegistered "RegisterDataSubject" nameD]⟩ := by
  refine ⟨?_, ?_, ?_⟩
  · unfold RegisterTransformSubject
    rw [hInit, hT]
    simp
  · unfold RegisterTransformSubjectWithProperties
    rw [hInit, hT]
    simp
  · unfold RegisterDataSubject
    rw [hInit, hD]
    simp

/-- Witness for C4: re-registering the transform subject "A" (with a different
schema) and the data subject "D" in `stPropAD` changes nothing and emits no
transport event. -/
theorem claim4_reregister_is_noop_witness :
    stPropAD.bInitialized = true ∧
    mapContains stPropAD.TransformSubjects "A" = true ∧
    mapContains stPropAD.DataSubjects "D" = true ∧
    (RegisterTransformSubject true stPropAD "A" =
       ⟨stPropAD, [], [.alreadyRegistered "RegisterTransformSubject" "A"]⟩ ∧
     RegisterTransformSubjectWithProperties true stPropAD "A" ["x", "y"] =
       ⟨stPropAD, [],
        [.alreadyRegistered "RegisterTransformSubjectWithProperties" "A"]⟩ ∧
     RegisterDataSubject stPropAD "D" ["x", "y"] =
       ⟨stPropAD, [], [.alreadyRegistered "RegisterDataSubject" "D"]⟩) :=
  ⟨by decide, by decide, by decide,
   claim4_reregister_is_noop true stPropAD "A" "D" ["x", "y"] ["x", "y"]
     (by decide) (by decide) (by decide)⟩

/-- Claim C5: while the bridge is initialized, `UpdateTransformSubject` on a
never-registered identity auto-registers it with the empty schema (expected
property count 0); afterwards `UpdateTransformSubjectWithProperties` on that
identity fails count validation (dropped, mismatch reported) for every non-empty
value list, and passes validation (no condition reported) for the empty list. -/
theorem claim5_autoregister_empty_schema (createOk : Bool) (st : BridgeState)
    (name : FName) (t t₂ : FTransformPayload) (vals : List FloatValue)
    (hInit : st.bInitialized = true)
    (hAbs : mapContains st.TransformSubjects name = false)
    (hne : vals ≠ []) :
    mapFind (UpdateTransformSubject createOk st name t).state.TransformSubjects
        name = some FSubjectInfo.empty ∧
    UpdateTransformSubjectWithProperties
        (UpdateTransformSubject createOk st name t).state name t₂ vals =
      ⟨(UpdateTransformSubject createOk st name t).state, [],
       [.schemaMismatch "UpdateTransformSubjectWithProperties" name 0
          vals.length]⟩ ∧
    (UpdateTransformSubjectWithProperties
        (UpdateTransformSubject createOk st name t).state name t₂ []).reports =
      [] := by
  have hstate := UpdateTransformSubject_state_absent createOk st name t hInit hAbs
  have hnew := RegisterTransformSubject_state_new createOk st name hInit hAbs
  have hfind : mapFind
      (UpdateTransformSubject createOk st name t).state.TransformSubjects name =
      some FSubjectInfo.empty := by rw [hstate]; exact hnew.1
  have hinit₂ : (UpdateTransformSubject createOk st name t).state.bInitialized =
      true := by rw [hstate]; exact hnew.2
  have hlen : FSubjectInfo.empty.ExpectedPropertyCount ≠ vals.length := by
    intro h
    exact hne (List.length_eq_zero.mp h.symm)
  refine ⟨hfind, ?_, ?_⟩
  · exact UpdateTransformSubjectWithProperties_mismatch _ name t₂ vals
      FSubjectInfo.empty hinit₂ hfind hlen
  · exact UpdateTransformSubjectWithProperties_valid_reports _ name t₂ []
      FSubjectInfo.empty hinit₂ hfind rfl

/-- Witness for C5: updating the never-registered "B" in `stReady` auto-registers
it with count 0; a one-value property update is then dropped with a mismatch,
while an empty-list update passes validation. -/
theorem claim5_autoregister_empty_schema_witness :
    stReady.bInitialized = true ∧
    mapContains stReady.TransformSubjects "B" = false ∧
    ([(⟨5⟩ : FloatValue)] ≠ ([] : List FloatValue)) ∧
    (mapFind (UpdateTransformSubject true stReady "B" ⟨1⟩).state.TransformSubjects
        "B" = some FSubjectInfo.empty ∧
     UpdateTransformSubjectWithProperties
        (UpdateTransformSubject true stReady "B" ⟨1⟩).state "B" ⟨2⟩ [⟨5⟩] =
       ⟨(UpdateTransformSubject true stReady "B" ⟨1⟩).state, [],
        [.schemaMismatch "UpdateTransformSubjectWithProperties" "B" 0 1]⟩ ∧
     (UpdateTransformSubjectWithProperties
        (UpdateTransformSubject true stReady "B" ⟨1⟩).state "B" ⟨2⟩ []).reports =
       []) :=
  ⟨by decide, by decide, by decide,
   claim5_autoregister_empty_schema true stReady "B" ⟨1⟩ ⟨2⟩ [⟨5⟩] (by decide)
     (by decide) (by decide)⟩

/-- Counterexample to claim C2: the Ready case and the Connected case do NOT
yield distinguishable status codes.  `stReady` is a reachable state in the
deferred-creation window (initialized, no transport handle) and `stConnectedA`
is a reachable state with a live handle, yet `GetConnectionStatus` returns
`ULL_OK` (0) for both. -/
theorem claim2_counterexample :
    Reachable stReady ∧ Reachable stConnectedA ∧
    stReady.bInitialized = true ∧ stReady.bLiveLinkSourceCreated = false ∧
    stConnectedA.bInitialized = true ∧
    stConnectedA.bLiveLinkSourceCreated = true ∧
    stConnectedA.LiveLinkProviderValid = true ∧
    GetConnectionStatus stReady = ULL_OK ∧
    GetConnectionStatus stConnectedA = ULL_OK := by
  have h₁ : Reachable stReady :=
    Relation.ReflTransGen.single (Step.initStep true "Sim" initialState)
  have h₂ : Reachable stConnectedA :=
    h₁.tail (Step.registerTransformStep true "A" stReady)
  exact ⟨h₁, h₂, by decide, by decide, by decide, by decide, by decide,
    by decide, by decide⟩

/-- Claim C2 (amended): `GetConnectionStatus` returns `ULL_NOT_INITIALIZED` (-3)
when the bridge is uninitialized and `ULL_OK` (0) both when a transport handle
exists and when the bridge is merely initialized-and-ready without a handle —
the Ready and Connected cases are collapsed onto the same success code rather
than being distinguishable; 0 means success and the not-connected (-2) and
not-initialized (-3) codes are distinct negative constants. -/
theorem claim2_connection_status (st : BridgeState) :
    (st.bInitialized = false → GetConnectionStatus st = ULL_NOT_INITIALIZED) ∧
    (st.bInitialized = true → st.bLiveLinkSourceCreated = true →
      st.LiveLinkProviderValid = true → GetConnectionStatus st = ULL_OK) ∧
    (st.bInitialized = true → st.bLiveLinkReady = true →
      GetConnectionStatus st = ULL_OK) ∧
    ULL_OK = 0 ∧ ULL_NOT_CONNECTED = -2 ∧ ULL_NOT_INITIALIZED = -3 ∧
    ULL_NOT_CONNECTED ≠ ULL_NOT_INITIALIZED := by
  refine ⟨?_, ?_, ?_, rfl, rfl, rfl, by decide⟩
  · intro hi
    unfold GetConnectionStatus
    rw [hi]
    simp
  · intro hi hs hv
    unfold GetConnectionStatus
    rw [hi, hs, hv]
    simp
  · intro hi hr
    unfold GetConnectionStatus
    rw [hi, hr]
    simp

/-- Witness for the amended C2 at the fresh state and the ready state. -/
theorem claim2_connection_status_witness :
    initialState.bInitialized = false ∧
    stReady.bInitialized = true ∧ stReady.bLiveLinkReady = true ∧
    GetConnectionStatus initialState = ULL_NOT_INITIALIZED ∧
    GetConnectionStatus stReady = ULL_OK :=
  ⟨by decide, by decide, by decide,
   (claim2_connection_status initialState).1 (by decide),
   (claim2_connection_status stReady).2.2.1 (by decide) (by decide)⟩

/-- Counterexample to claim C3: `ULL_UpdateObjectWithProperties` does not reject
a negative property count.  In the reachable state `stConnectedA` (transform
subject "A" registered with an empty schema, provider live), calling it with
propertyCount = -1 pushes a frame to the transport (the negative count is
silently treated as an empty value list) and reports no condition at all, rather
than being rejected before any push with a reported condition. -/
theorem claim3_counterexample :
    (ULL_UpdateObjectWithProperties stConnectedA (some "A") (some ⟨0⟩)
        (some fun i => ⟨i⟩) (-1)).events =
      [TransportEvent.updateSubjectFrameData "A" ⟨0⟩ []] ∧
    (ULL_UpdateObjectWithProperties stConnectedA (some "A") (some ⟨0⟩)
        (some fun i => ⟨i⟩) (-1)).reports = [] := by
  exact ⟨by decide, by decide⟩

/-- Claim C3 (amended): of the four counted entry points,
`ULL_RegisterObjectWithProperties`, `ULL_RegisterDataSubject` and
`ULL_UpdateDataSubject` reject a negative propertyCount before any state
mutation — the call returns with the state unchanged, nothing registered,
updated or pushed, and the condition reported.  `ULL_UpdateObjectWithProperties`
has no such check: a negative count is passed through as an empty value list
(the name is interned and the update proceeds as if zero values were given). -/
theorem claim3_negative_count_rejected (createOk : Bool) (st : BridgeState)
    (s : String) (pn : Option (Nat → Option String))
    (pv : Option (Nat → FloatValue)) (t : FTransformPayload) (c : Int)
    (hc : c < 0) :
    ULL_RegisterObjectWithProperties createOk st (some s) pn c =
      ⟨st, [], [.negativeCount "ULL_RegisterObjectWithProperties" c]⟩ ∧
    ULL_RegisterDataSubject st (some s) pn c =
      ⟨st, [], [.negativeCount "ULL_RegisterDataSubject" c]⟩ ∧
    ULL_UpdateDataSubject st (some s) pn pv c =
      ⟨st, [], [.negativeCount "ULL_UpdateDataSubject" c]⟩ ∧
    ULL_UpdateObjectWithProperties st (some s) (some t) pv c =
      UpdateTransformSubjectWithProperties (GetCachedName st (some s)).2
        (GetCachedName st (some s)).1 t [] := by
  have hng : ¬ c > 0 := by omega
  have hz : c.toNat = 0 := Int.toNat_of_nonpos (le_of_lt hc)
  have hcv : ConvertPropertyValues pv c.toNat = [] := by
    rw [hz]
    exact ConvertPropertyValues_zero pv
  refine ⟨?_, ?_, ?_, ?_⟩
  · unfold ULL_RegisterObjectWithProperties
    simp [hng, hc]
  · unfold ULL_RegisterDataSubject
    simp [hng, hc]
  · unfold ULL_UpdateDataSubject
    simp [hng, hc]
  · unfold ULL_UpdateObjectWithProperties
    simp only [hng, decide_eq_true_eq, if_false, Bool.false_and,
      decide_eq_false_iff_not, hcv]
    simp [hng, hcv]

/-- Witness for the amended C3 with count -2 on the fresh state. -/
theorem claim3_negative_count_rejected_witness :
    ((-2 : Int) < 0) ∧
    (ULL_RegisterObjectWithProperties true initialState (some "X") none (-2) =
       ⟨initialState, [],
        [.negativeCount "ULL_RegisterObjectWithProperties" (-2)]⟩ ∧
     ULL_RegisterDataSubject initialState (some "X") none (-2) =
       ⟨initialState, [], [.negativeCount "ULL_RegisterDataSubject" (-2)]⟩ ∧
     ULL_UpdateDataSubject initialState (some "X") none none (-2) =
       ⟨initialState, [], [.negativeCount "ULL_UpdateDataSubject" (-2)]⟩ ∧
     ULL_UpdateObjectWithProperties initialState (some "X") (some ⟨0⟩) none
         (-2) =
       UpdateTransformSubjectWithProperties
         (GetCachedName initialState (some "X")).2
         (GetCachedName initialState (some "X")).1 ⟨0⟩ []) :=
  ⟨by decide,
   claim3_negative_count_rejected true initialState "X" none none ⟨0⟩ (-2)
     (by decide)⟩

/-- Claim C6: `Shutdown` while Uninitialized is a reported no-op; `Shutdown`
while Initialized (in any state where the handle flag and handle validity agree,
as they always do) destroys the transport handle if one exists, empties both
registry maps and the name cache, clears the provider name, and transitions to
Uninitialized — after which the connection status is not-initialized, every
previously registered subject is gone, and only the process-wide engine-loop
flag survives for a fresh re-Initialize. -/
theorem claim6_shutdown_clears_everything (st : BridgeState)
    (hpv : st.bLiveLinkSourceCreated = st.LiveLinkProviderValid) :
    (st.bInitialized = false → Shutdown st = (st, [Report.nothingToDo])) ∧
    (st.bInitialized = true →
      (Shutdown st).2 = [] ∧
      (Shutdown st).1 =
        { bInitialized := false, ProviderName := "", bLiveLinkReady := false,
          LiveLinkProviderValid := false, bLiveLinkSourceCreated := false,
          bGEngineLoopInitialized := st.bGEngineLoopInitialized,
          TransformSubjects := [], DataSubjects := [], NameCache := [] } ∧
      GetConnectionStatus (Shutdown st).1 = ULL_NOT_INITIALIZED) := by
  constructor
  · intro hi
    unfold Shutdown
    rw [hi]
    simp
  · intro hi
    rcases st with ⟨bi, pn, rdy, pv, sc, ge, ts, ds, nc⟩
    simp only at hi hpv
    subst hi
    subst hpv
    by_cases hsc : sc = true
    · subst hsc
      refine ⟨rfl, rfl, rfl⟩
    · have hf : sc = false := by
        cases sc
        · rfl
        · exact absurd rfl hsc
      subst hf
      refine ⟨rfl, rfl, rfl⟩

/-- Witness for C6 at the connected state `stConnectedA` and, for the no-op
part, the fresh state. -/
theorem claim6_shutdown_clears_everything_witness :
    initialState.bInitialized = false ∧
    Shutdown initialState = (initialState, [Report.nothingToDo]) ∧
    stConnectedA.bLiveLinkSourceCreated = stConnectedA.LiveLinkProviderValid ∧
    stConnectedA.bInitialized = true ∧
    ((Shutdown stConnectedA).1.TransformSubjects = [] ∧
     (Shutdown stConnectedA).1.bLiveLinkSourceCreated = false ∧
     GetConnectionStatus (Shutdown stConnectedA).1 = ULL_NOT_INITIALIZED) :=
  ⟨by decide,
   (claim6_shutdown_clears_everything initialState (by decide)).1 (by decide),
   by decide, by decide,
   by
     have h :=
       (claim6_shutdown_clears_everything stConnectedA (by decide)).2 (by decide)
     exact ⟨by rw [h.2.1], by rw [h.2.1], h.2.2⟩⟩

/-- Counterexample to claim C7: the data-subject operations do NOT signal the
transport the way the transform operations do.  In the reachable connected state
`stConnectedA`, a successful `RegisterDataSubject` emits no schema declaration
(while `RegisterTransformSubjectWithProperties` of the same schema does), a
validated `UpdateDataSubject` pushes no frame, and `RemoveDataSubject` sends no
removal (while `RemoveTransformSubject` does). -/
theorem claim7_counterexample :
    (RegisterDataSubject stConnectedA "B" ["p"]).events = [] ∧
    (RegisterTransformSubjectWithProperties true stConnectedA "B" ["p"]).events =
      [TransportEvent.updateSubjectStaticData "B" ["p"]] ∧
    (UpdateDataSubject stDataD "D" [⟨1⟩]).events = [] ∧
    (UpdateDataSubject stDataD "D" [⟨1⟩]).reports = [] ∧
    (RemoveDataSubject stDataD "D").events = [] ∧
    (RemoveTransformSubject stConnectedA "A").events =
      [TransportEvent.removeSubject "A"] := by
  exact ⟨by decide, by decide, by decide, by decide, by decide, by decide⟩

/-- Claim C7 (amended): `RegisterDataSubject`, `UpdateDataSubject` and
`RemoveDataSubject` mirror the registry semantics of the transform operations on the
DataSubjects map — registration stores the declared schema, update validates the
value count against it (dropping mismatches with a report), removal erases the
record — but, unlike the transform operations, they never interact with the
transport: no schema declaration, no frame push and no removal signal is emitted
(that integration is left as TODO comments in the source). -/
theorem claim7_data_ops_registry_only (st : BridgeState) (nameR nameU : FName)
    (ps : List FName) (vals : List FloatValue) (info : FSubjectInfo)
    (hInit : st.bInitialized = true) :
    (RegisterDataSubject st nameR ps).events = [] ∧
    (UpdateDataSubject st nameU vals).events = [] ∧
    (RemoveDataSubject st nameU).events = [] ∧
    (mapContains st.DataSubjects nameR = false →
      RegisterDataSubject st nameR ps =
        ⟨{ st with DataSubjects := mapAdd st.DataSubjects nameR (FSubjectInfo.ofNames ps) }, [], []⟩) ∧
    (mapFind st.DataSubjects nameU = some info →
      info.ExpectedPropertyCount ≠ vals.length →
      UpdateDataSubject st nameU vals =
        ⟨st, [],
         [.schemaMismatch "UpdateDataSubject" nameU info.ExpectedPropertyCount
            vals.length]⟩) ∧
    ((mapRemove st.DataSubjects nameU).2 > 0 →
      RemoveDataSubject st nameU =
        ⟨{ st with DataSubjects := (mapRemove st.DataSubjects nameU).1 }, [], []⟩) := by
  refine ⟨RegisterDataSubject_events st nameR ps,
    UpdateDataSubject_events st nameU vals,
    RemoveDataSubject_events st nameU, ?_, ?_, ?_⟩
  · intro hAbs
    unfold RegisterDataSubject
    rw [hInit, hAbs]
    simp
  · intro hFind hMism
    exact UpdateDataSubject_mismatch st nameU vals info hInit hFind hMism
  · intro hFound
    unfold RemoveDataSubject
    rw [hInit]
    simp [hFound]

/-- Witness for the amended C7 in `stDataD`: registering the fresh data subject
"E" records its schema locally, a mismatching update of "D" is dropped and
reported, removal of "D" erases it — and none of the three emits a transport
event. -/
theorem claim7_data_ops_registry_only_witness :
    stDataD.bInitialized = true ∧
    mapContains stDataD.DataSubjects "E" = false ∧
    mapFind stDataD.DataSubjects "D" = some (FSubjectInfo.ofNames ["p"]) ∧
    (mapRemove stDataD.DataSubjects "D").2 > 0 ∧
    ((RegisterDataSubject stDataD "E" ["s"]).events = [] ∧
     RegisterDataSubject stDataD "E" ["s"] =
       ⟨{ stDataD with DataSubjects := mapAdd stDataD.DataSubjects "E" (FSubjectInfo.ofNames ["s"]) }, [], []⟩ ∧
     UpdateDataSubject stDataD "D" [] =
       ⟨stDataD, [], [.schemaMismatch "UpdateDataSubject" "D" 1 0]⟩ ∧
     RemoveDataSubject stDataD "D" =
       ⟨{ stDataD with DataSubjects := (mapRemove stDataD.DataSubjects "D").1 }, [], []⟩) := by
  have h := claim7_data_ops_registry_only stDataD "E" "D" ["s"] []
    (FSubjectInfo.ofNames ["p"]) (by decide)
  exact ⟨by decide, by decide, by decide, by decide,
    h.1, h.2.2.2.1 (by decide), h.2.2.2.2.1 (by decide) (by decide),
    h.2.2.2.2.2 (by decide)⟩

/-- Claim C8: the name cache is memoizing and stable.  A NULL or empty input
yields the designated none identity (`NAME_None`) without touching the cache;
for a non-empty raw string, the interned token is stored under the raw string,
and a second call with an equal raw string is a cache hit: it returns the
identical token and leaves the state entirely unchanged (no duplicate entry). -/
theorem claim8_name_cache_memoizes (st : BridgeState) (s : String)
    (hs : s ≠ "") :
    GetCachedName st none = (NAME_None, st) ∧
    GetCachedName st (some "") = (NAME_None, st) ∧
    mapFind (GetCachedName st (some s)).2.NameCache s =
      some (GetCachedName st (some s)).1 ∧
    GetCachedName (GetCachedName st (some s)).2 (some s) =
      ((GetCachedName st (some s)).1, (GetCachedName st (some s)).2) := by
  have key := GetCachedName_caches st s hs
  refine ⟨rfl, by simp [GetCachedName], key, ?_⟩
  set tok := (GetCachedName st (some s)).1 with htok
  set st₂ := (GetCachedName st (some s)).2 with hst₂
  unfold GetCachedName
  dsimp only
  rw [if_neg hs, key]

/-- Witness for C8: interning "Forklift" twice into the fresh cache returns the
same token and the second call changes nothing. -/
theorem claim8_name_cache_memoizes_witness :
    ("Forklift" ≠ "") ∧
    (GetCachedName initialState none = (NAME_None, initialState) ∧
     GetCachedName initialState (some "") = (NAME_None, initialState) ∧
     mapFind (GetCachedName initialState (some "Forklift")).2.NameCache
         "Forklift" = some (GetCachedName initialState (some "Forklift")).1 ∧
     GetCachedName (GetCachedName initialState (some "Forklift")).2
         (some "Forklift") =
       ((GetCachedName initialState (some "Forklift")).1,
        (GetCachedName initialState (some "Forklift")).2)) :=
  ⟨by decide, claim8_name_cache_memoizes initialState "Forklift" (by decide)⟩

/-- Claim C9: in every reachable bridge state, `bInitialized = true` implies
`bLiveLinkReady = true` (Initialize sets both together, Shutdown clears both
together); consequently `GetConnectionStatus` never returns `ULL_NOT_CONNECTED`
— its result is always the not-initialized code or the success code. -/
theorem claim9_never_not_connected (st : BridgeState) (h : Reachable st) :
    (st.bInitialized = true → st.bLiveLinkReady = true) ∧
    GetConnectionStatus st ≠ ULL_NOT_CONNECTED ∧
    (GetConnectionStatus st = ULL_NOT_INITIALIZED ∨
      GetConnectionStatus st = ULL_OK) := by
  have hr := reachable_ready h
  have hstat : GetConnectionStatus st = ULL_NOT_INITIALIZED ∨
      GetConnectionStatus st = ULL_OK := by
    by_cases hi : st.bInitialized = true
    · right
      unfold GetConnectionStatus
      rw [hi, hr hi]
      simp
    · left
      unfold GetConnectionStatus
      have hf : st.bInitialized = false := by simpa using hi
      rw [hf]
      simp
  refine ⟨hr, ?_, hstat⟩
  rcases hstat with h₀ | h₀ <;> rw [h₀] <;> decide

/-- Witness for C9 at the reachable ready state. -/
theorem claim9_never_not_connected_witness :
    Reachable stReady ∧
    GetConnectionStatus stReady ≠ ULL_NOT_CONNECTED := by
  have h : Reachable stReady :=
    Relation.ReflTransGen.single (Step.initStep true "Sim" initialState)
  exact ⟨h, (claim9_never_not_connected stReady h).2.1⟩

/-- Claim C10: call-surface subject operations invoked while the bridge is
Uninitialized still mutate the shared name cache.  For a non-NULL, non-empty
subject name, `ULL_RegisterObject` and `ULL_UpdateObject` called before
Initialize leave both registry maps unchanged and push nothing, yet afterwards
the name is present in the cache, because `GetCachedName` runs before the
initialized check inside the bridge operation. -/
theorem claim10_cache_mutated_while_uninitialized (createOk : Bool)
    (st : BridgeState) (s : String) (t : FTransformPayload)
    (hInit : st.bInitialized = false) (hs : s ≠ "") :
    ((ULL_RegisterObject createOk st (some s)).state.TransformSubjects =
       st.TransformSubjects ∧
     (ULL_RegisterObject createOk st (some s)).state.DataSubjects =
       st.DataSubjects ∧
     (mapFind (ULL_RegisterObject createOk st (some s)).state.NameCache
         s).isSome = true ∧
     (ULL_RegisterObject createOk st (some s)).events = []) ∧
    ((ULL_UpdateObject createOk st (some s) (some t)).state.TransformSubjects =
       st.TransformSubjects ∧
     (ULL_UpdateObject createOk st (some s) (some t)).state.DataSubjects =
       st.DataSubjects ∧
     (mapFind (ULL_UpdateObject createOk st (some s) (some t)).state.NameCache
         s).isSome = true ∧
     (ULL_UpdateObject createOk st (some s) (some t)).events = []) := by
  have hpres := GetCachedName_preserves st (some s)
  have hkey := GetCachedName_caches st s hs
  have hinit₂ : (GetCachedName st (some s)).2.bInitialized = false := by
    rw [hpres.1, hInit]
  have hreg : RegisterTransformSubject createOk (GetCachedName st (some s)).2
      (GetCachedName st (some s)).1 =
      ⟨(GetCachedName st (some s)).2, [],
       [.notInitializedReport "RegisterTransformSubject"]⟩ := by
    unfold RegisterTransformSubject
    rw [hinit₂]
    simp
  have hupd : UpdateTransformSubject createOk (GetCachedName st (some s)).2
      (GetCachedName st (some s)).1 t =
      ⟨(GetCachedName st (some s)).2, [], []⟩ := by
    unfold UpdateTransformSubject
    rw [hinit₂]
    simp
  have hULLreg : ULL_RegisterObject createOk st (some s) =
      RegisterTransformSubject createOk (GetCachedName st (some s)).2
        (GetCachedName st (some s)).1 := rfl
  have hULLupd : ULL_UpdateObject createOk st (some s) (some t) =
      UpdateTransformSubject createOk (GetCachedName st (some s)).2
        (GetCachedName st (some s)).1 t := rfl
  constructor
  · rw [hULLreg, hreg]
    exact ⟨hpres.2.2.2.2.1, hpres.2.2.2.2.2, by rw [hkey]; rfl, rfl⟩
  · rw [hULLupd, hupd]
    exact ⟨hpres.2.2.2.2.1, hpres.2.2.2.2.2, by rw [hkey]; rfl, rfl⟩

/-- Witness for C10: registering and updating "Crate" on the fresh,
uninitialized bridge leaves both registries empty but interns "Crate". -/
theorem claim10_cache_mutated_while_uninitialized_witness :
    initialState.bInitialized = false ∧ ("Crate" ≠ "") ∧
    ((mapFind (ULL_RegisterObject true initialState
        (some "Crate")).state.NameCache "Crate").isSome = true ∧
     (ULL_RegisterObject true initialState
        (some "Crate")).state.TransformSubjects = [] ∧
     (mapFind (ULL_UpdateObject true initialState (some "Crate")
        (some ⟨0⟩)).state.NameCache "Crate").isSome = true) := by
  have h := claim10_cache_mutated_while_uninitialized true initialState "Crate"
    ⟨0⟩ (by decide) (by decide)
  exact ⟨by decide, by decide, h.1.2.2.1, by rw [h.1.1]; rfl, h.2.2.2.1⟩

end SimioLiveLink
